import Mathlib

/-!
Verification of the BAAC loader (ARS-DM12-bot, `src/baac_loader.py`).

This file shallowly embeds the data-cleaning core of the loader:
the GPS coordinate parser, the coordinate-pair validator, the
numeric-code cleaners, the timestamp reconciler, the column
normalizer, the per-year loader / aggregator skeleton, and the
signature-based cache, and proves or refutes the specification
claims about them.

Conventions: pandas cells are `Option String` / `Option ℚ` (with
`none` for NaN/null); Python floats are modelled as exact rationals;
fallible operations return `Option`/`Except`.
-/

namespace DM12

/-! ## String / digit utilities (models of the Python primitives used) -/

/-- Value of a decimal digit string, as Python `int` on digit-only strings:
`int("0055") = 55`. -/
def natDigitsVal (l : List Char) : Nat :=
  l.foldl (fun a c => a * 10 + (c.toNat - 48)) 0

/-- Decimal rendering of a natural number, as Python `str(n)` for `n : int`. -/
def natDigits (n : Nat) : List Char :=
  if n < 10 then [Nat.digitChar n]
  else natDigits (n / 10) ++ [Nat.digitChar (n % 10)]
decreasing_by
  exact Nat.div_lt_self (by omega) (by omega)

/-- Python `str(n)` for a natural number. -/
def natRepr (n : Nat) : String := ⟨natDigits n⟩

/-- Python `str.strip()` (strip leading/trailing whitespace). -/
def pyStrip (s : String) : String :=
  ⟨((s.data.dropWhile Char.isWhitespace).reverse.dropWhile Char.isWhitespace).reverse⟩

/-- Python `str.lower()` (ASCII lowering suffices for the values involved). -/
def strToLower (s : String) : String := ⟨s.data.map Char.toLower⟩

/-- Python `c in s` for a single character. -/
def containsChar (s : String) (c : Char) : Bool := s.data.any (fun x => x == c)

/-- Python `str.replace(",", ".")` (single-character replacement). -/
def replaceCommaDot (s : String) : String :=
  ⟨s.data.map (fun c => if c == ',' then '.' else c)⟩

/-- Python `str.zfill(w)`: left-pad with zeros to width `w`, keeping a
leading sign character in front of the padding. -/
def zfillL (w : Nat) (l : List Char) : List Char :=
  if w ≤ l.length then l
  else
    match l with
    | c :: rest =>
        if c == '-' || c == '+' then
          c :: (List.replicate (w - l.length) '0' ++ rest)
        else
          List.replicate (w - l.length) '0' ++ l
    | [] => List.replicate w '0'

/-- Split a character list at every dot, as Python `str.split(".")`. -/
def splitDot : List Char → List (List Char)
  | [] => [[]]
  | c :: rest =>
    match splitDot rest with
    | [] => [[]]
    | g :: gs => if c == '.' then [] :: g :: gs else (c :: g) :: gs

/-- All characters are decimal digits. -/
def digitsOnly (l : List Char) : Bool := l.all Char.isDigit

/-- Split an optional leading sign from a float literal: the negation flag
and the remaining characters. -/
def floatSignSplit (t : List Char) : Bool × List Char :=
  match t with
  | '-' :: rest => (true, rest)
  | '+' :: rest => (false, rest)
  | _ => (false, t)

/-- Python `float(s)` restricted to plain decimal literals
`[ws][sign]digits[.digits]` (the only forms the coordinate data uses);
other forms are parse failures. -/
def pyFloat (s : String) : Option ℚ :=
  let p := floatSignSplit (pyStrip s).data
  let mag : Option ℚ :=
    match splitDot p.2 with
    | [a] =>
        if !a.isEmpty && digitsOnly a then some (natDigitsVal a : ℚ) else none
    | [a, b] =>
        if (!a.isEmpty || !b.isEmpty) && digitsOnly a && digitsOnly b then
          some ((natDigitsVal a : ℚ) + (natDigitsVal b : ℚ) / (10 : ℚ) ^ b.length)
        else none
    | _ => none
  mag.map (fun m => if p.1 then -m else m)

/-! ## GPS coordinate parser (`parse_gps_coordinate`, baac_loader.py:160-229) -/

/-- The null/empty/sentinel test of the parser:
`if not str_val or str_val.lower() in ['nan', 'none', '', '0']`. -/
def sentinel_check (sv : String) : Bool :=
  sv == "" || strToLower sv == "nan" || strToLower sv == "none" || strToLower sv == "0"

/-- `str_val.startswith('-')`. -/
def legacy_negative (sv : String) : Bool :=
  match sv.data with
  | '-' :: _ => true
  | _ => false

/-- Digits kept by the legacy branch: drop a leading minus sign, then keep
only digit characters. -/
def legacy_digits (sv : String) : List Char :=
  (match sv.data with
   | '-' :: rest => rest
   | l => l).filter Char.isDigit

/-- `all(ch == '0' for ch in digits)`. -/
def all_zero (l : List Char) : Bool := l.all (fun c => c == '0')

/-- The legacy-format value: zero-pad to 7 digits, first 2 digits are whole
degrees, digits 3-7 are the fractional part (`float(f"{digits[:2]}.{digits[2:7]}")`). -/
def legacyCoord (ds : List Char) : ℚ :=
  let d7 := List.replicate (7 - ds.length) '0' ++ ds
  (natDigitsVal (d7.take 2) : ℚ) + (natDigitsVal ((d7.drop 2).take 5) : ℚ) / 100000

/-- `parse_gps_coordinate` (baac_loader.py:160-229): `none` models both a
null input (`pd.isna`) and a rejected value (`np.nan` result). -/
def parse_gps_coordinate (value : Option String) : Option ℚ :=
  match value with
  | none => none
  | some v =>
    let sv := pyStrip v
    if sentinel_check sv then none
    else if containsChar sv ',' || containsChar sv '.' then
      match pyFloat (replaceCommaDot sv) with
      | none => none
      | some q => if q = 0 ∨ |q| > 90 then none else some q
    else
      let ds := legacy_digits sv
      if ds.isEmpty || all_zero ds then none
      else
        let coord := legacyCoord ds
        if coord = 0 ∨ coord > 90 then none
        else some (if legacy_negative sv then -coord else coord)

/-- Final pair validation of `process_coordinates` (baac_loader.py:267-273):
if either coordinate is null or out of range, null out both. -/
def validate_pair (la lo : Option ℚ) : Option ℚ × Option ℚ :=
  match la, lo with
  | some a, some b => if |a| > 90 ∨ |b| > 180 then (none, none) else (some a, some b)
  | _, _ => (none, none)

/-- `process_coordinates` restricted to one row of the accident table:
parse both raw cells, then apply the final pair validation. -/
def process_coordinates_row (rawLat rawLong : Option String) : Option ℚ × Option ℚ :=
  validate_pair (parse_gps_coordinate rawLat) (parse_gps_coordinate rawLong)

/-- `process_coordinates` over the whole accident table (rows are the raw
`(lat, long)` cell pairs). -/
def process_coordinates (rows : List (Option String × Option String)) :
    List (Option ℚ × Option ℚ) :=
  rows.map (fun r => process_coordinates_row r.1 r.2)

/-! ### Evaluation helpers

The rational arithmetic of the parser does not reduce by `decide` (the
kernel cannot unfold `Rat` normalization), so concrete evaluations are
split into a decidable character-level part and a `norm_num` part. -/

/-- Evaluate `legacyCoord` from the two digit-group values. -/
theorem legacyCoord_eval (ds : List Char) (a b : Nat)
    (ha : natDigitsVal ((List.replicate (7 - ds.length) '0' ++ ds).take 2) = a)
    (hb : natDigitsVal (((List.replicate (7 - ds.length) '0' ++ ds).drop 2).take 5) = b) :
    legacyCoord ds = (a : ℚ) + (b : ℚ) / 100000 := by
  simp [legacyCoord, ha, hb]

/-- Evaluate the legacy branch of `parse_gps_coordinate`. -/
theorem parse_legacy_eval (v : String) (q : ℚ) (neg : Bool)
    (hsent : sentinel_check (pyStrip v) = false)
    (hc : containsChar (pyStrip v) ',' = false)
    (hd : containsChar (pyStrip v) '.' = false)
    (hne : (legacy_digits (pyStrip v)).isEmpty = false)
    (hz : all_zero (legacy_digits (pyStrip v)) = false)
    (hcoord : legacyCoord (legacy_digits (pyStrip v)) = q)
    (hneg : legacy_negative (pyStrip v) = neg)
    (hq : ¬(q = 0 ∨ q > 90)) :
    parse_gps_coordinate (some v) = some (if neg then -q else q) := by
  simp only [parse_gps_coordinate, hsent, hc, hd, Bool.false_eq_true, if_false,
    Bool.or_self, hne, hz, hcoord, hneg]
  rw [if_neg hq]

/-- Evaluate the modern branch of `parse_gps_coordinate`. -/
theorem parse_modern_eval (v : String) (q : ℚ)
    (hsent : sentinel_check (pyStrip v) = false)
    (hcd : (containsChar (pyStrip v) ',' || containsChar (pyStrip v) '.') = true)
    (hf : pyFloat (replaceCommaDot (pyStrip v)) = some q) :
    parse_gps_coordinate (some v) = if q = 0 ∨ |q| > 90 then none else some q := by
  simp only [parse_gps_coordinate, hsent, Bool.false_eq_true, if_false, hcd, if_true, hf]

/-- Evaluate `pyFloat` on a fractional literal. -/
theorem pyFloat_eval_frac (s : String) (neg : Bool) (u a b : List Char) (x y : Nat)
    (h1 : floatSignSplit (pyStrip s).data = (neg, u))
    (h2 : splitDot u = [a, b])
    (h3 : ((!a.isEmpty || !b.isEmpty) && digitsOnly a && digitsOnly b) = true)
    (hx : natDigitsVal a = x) (hy : natDigitsVal b = y) :
    pyFloat s = some (if neg then -((x : ℚ) + (y : ℚ) / (10 : ℚ) ^ b.length)
                      else (x : ℚ) + (y : ℚ) / (10 : ℚ) ^ b.length) := by
  simp only [pyFloat, h1, h2, h3, if_true, hx, hy]
  rfl

/-- Evaluate `pyFloat` on an integer literal. -/
theorem pyFloat_eval_int (s : String) (neg : Bool) (u a : List Char) (x : Nat)
    (h1 : floatSignSplit (pyStrip s).data = (neg, u))
    (h2 : splitDot u = [a])
    (h3 : (!a.isEmpty && digitsOnly a) = true)
    (hx : natDigitsVal a = x) :
    pyFloat s = some (if neg then -(x : ℚ) else (x : ℚ)) := by
  simp only [pyFloat, h1, h2, h3, if_true, hx]
  rfl

/-! ### Digit-string arithmetic lemmas -/

theorem natDigitsVal_cons_zero (l : List Char) :
    natDigitsVal ('0' :: l) = natDigitsVal l := rfl

theorem natDigitsVal_replicate_zero (k : Nat) (l : List Char) :
    natDigitsVal (List.replicate k '0' ++ l) = natDigitsVal l := by
  induction k with
  | zero => simp
  | succ n ih => rw [List.replicate_succ, List.cons_append, natDigitsVal_cons_zero, ih]

theorem legacyCoord_nonneg (ds : List Char) : 0 ≤ legacyCoord ds := by
  unfold legacyCoord
  positivity

/-- The legacy split as the specification words it (pad on the left to at
least 6 digits; a 6-digit string splits 1 whole-degree digit + 5 fractional
digits, a longer one splits 2 whole-degree digits + the following 5
fractional digits). -/
def claimLegacyCoord (ds : List Char) : ℚ :=
  let d6 := List.replicate (6 - ds.length) '0' ++ ds
  if d6.length = 6 then
    (natDigitsVal (d6.take 1) : ℚ) + (natDigitsVal (d6.drop 1) : ℚ) / 100000
  else
    (natDigitsVal (d6.take 2) : ℚ) + (natDigitsVal ((d6.drop 2).take 5) : ℚ) / 100000

/-- The code's 7-digit zero-fill split agrees with the specification's
6-digit split on every digit string. -/
theorem legacyCoord_eq_claim (ds : List Char) : legacyCoord ds = claimLegacyCoord ds := by
  simp only [legacyCoord, claimLegacyCoord]
  rcases Nat.lt_or_ge ds.length 6 with h | h
  · -- at most 5 digits: both sides read 0 whole degrees and the zero-padded digits
    rw [show 7 - ds.length = 2 + (5 - ds.length) by omega,
      show 6 - ds.length = 1 + (5 - ds.length) by omega,
      List.replicate_add, List.replicate_add, List.append_assoc, List.append_assoc]
    have hlen5 : (List.replicate (5 - ds.length) '0' ++ ds).length = 5 := by
      simp only [List.length_append, List.length_replicate]; omega
    have hcond : (List.replicate 1 '0' ++
        (List.replicate (5 - ds.length) '0' ++ ds)).length = 6 := by
      simp only [List.length_append, List.length_replicate]; omega
    rw [if_pos hcond]
    show (natDigitsVal ['0', '0'] : ℚ) +
        (natDigitsVal (List.take 5 (List.replicate (5 - ds.length) '0' ++ ds)) : ℚ) / 100000 =
      (natDigitsVal ['0'] : ℚ) +
        (natDigitsVal (List.replicate (5 - ds.length) '0' ++ ds) : ℚ) / 100000
    rw [List.take_of_length_le (le_of_eq hlen5),
      show natDigitsVal ['0', '0'] = 0 from rfl, show natDigitsVal ['0'] = 0 from rfl]
  · rcases Nat.eq_or_lt_of_le h with h6 | h7
    · -- exactly 6 digits
      rw [show 7 - ds.length = 1 by omega, show 6 - ds.length = 0 by omega]
      simp only [List.replicate, List.cons_append, List.nil_append]
      rw [if_pos h6.symm]
      show (natDigitsVal ('0' :: List.take 1 ds) : ℚ) +
          (natDigitsVal (List.take 5 (List.drop 1 ds)) : ℚ) / 100000 =
        (natDigitsVal (List.take 1 ds) : ℚ) + (natDigitsVal (List.drop 1 ds) : ℚ) / 100000
      have hd5 : (List.drop 1 ds).length ≤ 5 := by rw [List.length_drop]; omega
      rw [natDigitsVal_cons_zero, List.take_of_length_le hd5]
    · -- at least 7 digits: no padding on either side, identical split
      rw [show 7 - ds.length = 0 by omega, show 6 - ds.length = 0 by omega]
      simp only [List.replicate, List.nil_append]
      rw [if_neg (by omega)]

/-! ### C1: legacy compact-encoding split -/

/-- C1 counterexample: on an 8-digit legacy input the code keeps only the 5
fractional digits after the 2 whole-degree digits (`digits[2:7]`), while the
claim takes all 6 remaining digits as the fractional part; the two values
differ at input "12345678". -/
theorem c1_legacy_split_counterexample :
    parse_gps_coordinate (some "12345678") = some ((1234567 : ℚ) / 100000) ∧
    ((1234567 : ℚ) / 100000) ≠ (12345678 : ℚ) / 1000000 := by
  constructor
  · rw [parse_legacy_eval "12345678" ((12 : ℚ) + 34567 / 100000) false (by decide)
        (by decide) (by decide) (by decide) (by decide)
        (legacyCoord_eval _ 12 34567 (by decide) (by decide)) (by decide) (by norm_num)]
    norm_num
  · norm_num

/-- C1 (amended): for every legacy compact-encoded input (no decimal
separator, not a null/zero sentinel, with a nonzero digit), the parser
strips an optional leading minus and all non-digit characters, left-pads to
at least 6 digits, and splits 1+5 digits when exactly 6 remain and
otherwise 2 whole-degree digits plus the following 5 fractional digits
(digits beyond the seventh are discarded); the sign is reapplied.  Both
spec examples evaluate accordingly:
`parse_coordinate("5055737") = 50.55737`,
`parse_coordinate("-082600") = -0.82600`. -/
theorem c1_legacy_split :
    (∀ v : String,
      sentinel_check (pyStrip v) = false →
      containsChar (pyStrip v) ',' = false →
      containsChar (pyStrip v) '.' = false →
      (legacy_digits (pyStrip v)).isEmpty = false →
      all_zero (legacy_digits (pyStrip v)) = false →
      claimLegacyCoord (legacy_digits (pyStrip v)) ≠ 0 →
      claimLegacyCoord (legacy_digits (pyStrip v)) ≤ 90 →
      parse_gps_coordinate (some v) =
        some (if legacy_negative (pyStrip v)
              then -claimLegacyCoord (legacy_digits (pyStrip v))
              else claimLegacyCoord (legacy_digits (pyStrip v)))) ∧
    parse_gps_coordinate (some "5055737") = some ((5055737 : ℚ) / 100000) ∧
    parse_gps_coordinate (some "-082600") = some (-((82600 : ℚ) / 100000)) := by
  refine ⟨?_, ?_, ?_⟩
  · intro v hsent hc hd hne hz hq0 hq90
    apply parse_legacy_eval v _ _ hsent hc hd hne hz (legacyCoord_eq_claim _) rfl
    rw [not_or]
    exact ⟨hq0, not_lt.mpr hq90⟩
  · rw [parse_legacy_eval "5055737" ((50 : ℚ) + 55737 / 100000) false (by decide)
      (by decide) (by decide) (by decide) (by decide)
      (legacyCoord_eval _ 50 55737 (by decide) (by decide)) (by decide) (by norm_num)]
    norm_num
  · rw [parse_legacy_eval "-082600" ((0 : ℚ) + 82600 / 100000) true (by decide)
      (by decide) (by decide) (by decide) (by decide)
      (legacyCoord_eval _ 0 82600 (by decide) (by decide)) (by decide) (by norm_num)]
    norm_num

/-- C1 witness: the amended split theorem applied at the spec's own
7-digit example. -/
theorem c1_legacy_split_witness :
    parse_gps_coordinate (some "5055737") = some ((5055737 : ℚ) / 100000) := by
  have hval : claimLegacyCoord (legacy_digits (pyStrip "5055737")) =
      (50 : ℚ) + 55737 / 100000 := by
    rw [← legacyCoord_eq_claim]
    exact legacyCoord_eval _ 50 55737 (by decide) (by decide)
  have h := c1_legacy_split.1 "5055737" (by decide) (by decide) (by decide) (by decide)
    (by decide) (by rw [hval]; norm_num) (by rw [hval]; norm_num)
  rw [h, hval]
  have hneg : legacy_negative (pyStrip "5055737") = false := by decide
  rw [hneg]
  norm_num

/-! ### C3: post-parse validation -/

/-- Soundness of the parser: every accepted coordinate is nonzero with
magnitude at most 90, for both axes (the code has a single axis-independent
parse function). -/
theorem parse_gps_coordinate_sound (s : String) (q : ℚ)
    (h : parse_gps_coordinate (some s) = some q) : q ≠ 0 ∧ |q| ≤ 90 := by
  simp only [parse_gps_coordinate] at h
  by_cases hs : sentinel_check (pyStrip s) = true
  · rw [if_pos hs] at h
    exact absurd h (by simp)
  · rw [if_neg hs] at h
    by_cases hm : (containsChar (pyStrip s) ',' || containsChar (pyStrip s) '.') = true
    · rw [if_pos hm] at h
      rcases hpf : pyFloat (replaceCommaDot (pyStrip s)) with _ | q0 <;> rw [hpf] at h <;>
        dsimp only at h
      · exact absurd h (by simp)
      · by_cases hg : q0 = 0 ∨ |q0| > 90
        · rw [if_pos hg] at h
          exact absurd h (by simp)
        · rw [if_neg hg] at h
          push_neg at hg
          obtain rfl : q0 = q := by simpa using h
          exact ⟨hg.1, le_of_not_lt (not_lt.mpr hg.2)⟩
    · rw [if_neg hm] at h
      by_cases he : ((legacy_digits (pyStrip s)).isEmpty ||
          all_zero (legacy_digits (pyStrip s))) = true
      · rw [if_pos he] at h
        exact absurd h (by simp)
      · rw [if_neg he] at h
        by_cases hg : legacyCoord (legacy_digits (pyStrip s)) = 0 ∨
            legacyCoord (legacy_digits (pyStrip s)) > 90
        · rw [if_pos hg] at h
          exact absurd h (by simp)
        · rw [if_neg hg] at h
          push_neg at hg
          have hnn := legacyCoord_nonneg (legacy_digits (pyStrip s))
          simp only [Option.some.injEq] at h
          by_cases hn : legacy_negative (pyStrip s) = true
          · rw [if_pos hn] at h
            subst h
            refine ⟨neg_ne_zero.mpr hg.1, ?_⟩
            rw [abs_neg, abs_of_nonneg hnn]
            exact hg.2
          · rw [if_neg hn] at h
            subst h
            refine ⟨hg.1, ?_⟩
            rw [abs_of_nonneg hnn]
            exact hg.2

/-- C3 counterexample: the longitude value "95.4" parses as a float to
95.4, which is nonzero and within the claimed 180-degree longitude bound,
yet the parser nulls it: the rejection bound is 90 for both axes, not 180
for longitude. -/
theorem c3_longitude_bound_counterexample :
    parse_gps_coordinate (some "95.4") = none ∧
    pyFloat (replaceCommaDot (pyStrip "95.4")) = some ((954 : ℚ) / 10) ∧
    ((954 : ℚ) / 10) ≠ 0 ∧ |(954 : ℚ) / 10| ≤ 180 := by
  have hf : pyFloat (replaceCommaDot (pyStrip "95.4")) = some ((954 : ℚ) / 10) := by
    rw [pyFloat_eval_frac _ false ['9', '5', '.', '4'] ['9', '5'] ['4'] 95 4
        (by decide) (by decide) (by decide) (by decide) (by decide)]
    norm_num
  refine ⟨?_, hf, by norm_num, abs_le.mpr (by norm_num)⟩
  rw [parse_modern_eval "95.4" _ (by decide) (by decide) hf,
    if_pos (Or.inr (lt_of_lt_of_le (by norm_num : (90 : ℚ) < 954 / 10) (le_abs_self _)))]

/-- C3 (amended): validation is uniform across encodings with a 90-degree
magnitude bound on both axes: null input gives null, empty/"nan"/"none"/"0"
inputs give null, a decimal-separator value that parses to `q` is kept
exactly when `q ≠ 0` and `|q| ≤ 90`, and every accepted value of either
encoding is nonzero with magnitude at most 90. -/
theorem c3_uniform_validation :
    parse_gps_coordinate none = none ∧
    (∀ s, sentinel_check (pyStrip s) = true → parse_gps_coordinate (some s) = none) ∧
    (∀ s q, sentinel_check (pyStrip s) = false →
      (containsChar (pyStrip s) ',' || containsChar (pyStrip s) '.') = true →
      pyFloat (replaceCommaDot (pyStrip s)) = some q →
      (parse_gps_coordinate (some s) = some q ↔ (q ≠ 0 ∧ |q| ≤ 90))) ∧
    (∀ s q, parse_gps_coordinate (some s) = some q → q ≠ 0 ∧ |q| ≤ 90) := by
  refine ⟨rfl, ?_, ?_, parse_gps_coordinate_sound⟩
  · intro s hs
    simp only [parse_gps_coordinate, hs, if_true]
  · intro s q h1 h2 h3
    constructor
    · exact parse_gps_coordinate_sound s q
    · rintro ⟨hq0, hq90⟩
      rw [parse_modern_eval s q h1 h2 h3, if_neg]
      rw [not_or]
      exact ⟨hq0, not_lt.mpr hq90⟩

/-- C3 witness: the modern-format acceptance direction applied at the
spec's example "47,56277000". -/
theorem c3_uniform_validation_witness :
    parse_gps_coordinate (some "47,56277000") = some ((4756277 : ℚ) / 100000) := by
  have hf : pyFloat (replaceCommaDot (pyStrip "47,56277000")) =
      some ((4756277 : ℚ) / 100000) := by
    rw [pyFloat_eval_frac _ false "47.56277000".data "47".data "56277000".data 47 56277000
        (by decide) (by decide) (by decide) (by decide) (by decide)]
    norm_num
  exact (c3_uniform_validation.2.2.1 "47,56277000" _ (by decide) (by decide) hf).mpr
    ⟨by norm_num, abs_le.mpr (by norm_num)⟩

/-! ### C4: coordinate pair invariant -/

/-- C4: after coordinate processing, every row has `lat` and `long` either
both null or both present, and when present `|lat| ≤ 90` and `|long| ≤ 180`. -/
theorem c4_pair_invariant (rows : List (Option String × Option String))
    (p : Option ℚ × Option ℚ) (hp : p ∈ process_coordinates rows) :
    (p.1 = none ∧ p.2 = none) ∨
    ∃ a b, p.1 = some a ∧ p.2 = some b ∧ |a| ≤ 90 ∧ |b| ≤ 180 := by
  obtain ⟨r, _, rfl⟩ := List.mem_map.1 hp
  simp only [process_coordinates_row]
  rcases parse_gps_coordinate r.1 with _ | a
  · exact Or.inl ⟨rfl, rfl⟩
  · rcases parse_gps_coordinate r.2 with _ | b
    · exact Or.inl ⟨rfl, rfl⟩
    · simp only [validate_pair]
      split_ifs with hb
      · exact Or.inl ⟨rfl, rfl⟩
      · push_neg at hb
        exact Or.inr ⟨a, b, rfl, rfl, le_of_not_lt (not_lt.mpr hb.1),
          le_of_not_lt (not_lt.mpr hb.2)⟩

/-- C4 witness: the invariant instantiated on a one-row table with missing
coordinates. -/
theorem c4_pair_invariant_witness :
    ((((none : Option ℚ), (none : Option ℚ)).1 = none ∧
      (((none : Option ℚ), (none : Option ℚ))).2 = none) ∨
    ∃ a b, (((none : Option ℚ), (none : Option ℚ))).1 = some a ∧
      (((none : Option ℚ), (none : Option ℚ))).2 = some b ∧ |a| ≤ 90 ∧ |b| ≤ 180) :=
  c4_pair_invariant [(none, none)] (none, none)
    (by simp [process_coordinates, process_coordinates_row, parse_gps_coordinate,
      validate_pair])

/-! ## Numeric-code cleaning (`clean_numeric_codes`, baac_loader.py:62-110) -/

/-- Python `str.rstrip(".0")`: strips every trailing character that is
either a dot or a zero (a character-set strip, not a suffix removal). -/
def rstripDotZero (s : String) : String :=
  ⟨(s.data.reverse.dropWhile (fun c => c == '.' || c == '0')).reverse⟩

/-- The department cleaner (baac_loader.py:104-105):
`astype(str).str.rstrip(".0").str.zfill(2)`. -/
def clean_dep (s : String) : String := ⟨zfillL 2 (rstripDotZero s).data⟩

/-- Removal of parentheses and whitespace, the regex `[\(\)\s]` with empty
replacement (baac_loader.py:77). -/
def strip_paren_space (s : String) : String :=
  ⟨s.data.filter (fun c => !(c == '(' || c == ')' || c.isWhitespace))⟩

/-- `pd.to_numeric(..., errors="coerce")` on one string cell: parse a plain
decimal literal, anything unparsable coerces to NaN. -/
def to_numeric (s : String) : Option ℚ := pyFloat s

/-- The pr / pr1 cleaner (baac_loader.py:76-78): strip parentheses and
whitespace, then coerce to a number. -/
def clean_pr (s : String) : Option ℚ := to_numeric (strip_paren_space s)

/-- The larrout / lartpc cleaner (baac_loader.py:86-88): strip whitespace,
replace comma by dot, then coerce to a number. -/
def clean_larrout (s : String) : Option ℚ := to_numeric (replaceCommaDot (pyStrip s))

/-- The nbv cleaner (baac_loader.py:96-97): replace a literal
`"#VALEURMULTI"` cell with null, then coerce to a number. -/
def clean_nbv (s : String) : Option ℚ :=
  if s == "#VALEURMULTI" then none else to_numeric s

/-! ### C5: department code sanitizer -/

/-- C5: the spec's examples hold, but `rstrip(".0")` strips every trailing
zero, so department "70" is rewritten to "07" — the code changes which
department the code denotes, contradicting the claim (and the intent shown
by the sibling `com` cleaner, which removes only a ".0" substring). -/
theorem c5_clean_dep_eval :
    clean_dep "7" = "07" ∧ clean_dep "75" = "75" ∧
    clean_dep "70" = "07" ∧ "07" ≠ "70" := by decide

/-! ### C6: numeric field sanitizer and sentinels -/

/-- C6 counterexample: the sanitizer does not null the sentinel tokens
"-1" and "(1)"; after stripping parentheses/whitespace they parse to the
numbers -1 and 1. -/
theorem c6_sentinel_counterexample :
    clean_pr "  -1 " = some (-1 : ℚ) ∧ clean_pr "(1)" = some (1 : ℚ) ∧
    clean_pr "  -1 " ≠ none ∧ clean_pr "(1)" ≠ none := by
  have h1 : clean_pr "  -1 " = some (-1 : ℚ) := by
    have := pyFloat_eval_int (strip_paren_space "  -1 ") true ['1'] ['1'] 1
      (by decide) (by decide) (by decide) (by decide)
    simp only [clean_pr, to_numeric, this]
    norm_num
  have h2 : clean_pr "(1)" = some (1 : ℚ) := by
    have := pyFloat_eval_int (strip_paren_space "(1)") false ['1'] ['1'] 1
      (by decide) (by decide) (by decide) (by decide)
    simp only [clean_pr, to_numeric, this]
    norm_num
  exact ⟨h1, h2, by rw [h1]; exact Option.some_ne_none _, by rw [h2]; exact Option.some_ne_none _⟩

/-- C6 (amended): sentinel tokens are parsed, not nulled: "  -1 " gives -1
and "(1)" gives 1; a decimal-comma measurement "5,5" gives 5.5; the only
token-level sentinel mapped to null is the literal "#VALEURMULTI" of the
nbv field; unparsable text coerces to null. -/
theorem c6_numeric_sanitizer :
    clean_pr "  -1 " = some (-1 : ℚ) ∧ clean_pr "(1)" = some (1 : ℚ) ∧
    clean_larrout "5,5" = some ((11 : ℚ) / 2) ∧
    clean_nbv "#VALEURMULTI" = none ∧ clean_pr "abc" = none := by
  refine ⟨?_, ?_, ?_, by decide, by decide⟩
  · have := pyFloat_eval_int (strip_paren_space "  -1 ") true ['1'] ['1'] 1
      (by decide) (by decide) (by decide) (by decide)
    simp only [clean_pr, to_numeric, this]
    norm_num
  · have := pyFloat_eval_int (strip_paren_space "(1)") false ['1'] ['1'] 1
      (by decide) (by decide) (by decide) (by decide)
    simp only [clean_pr, to_numeric, this]
    norm_num
  · have := pyFloat_eval_frac (replaceCommaDot (pyStrip "5,5")) false "5.5".data
      ['5'] ['5'] 5 5 (by decide) (by decide) (by decide) (by decide) (by decide)
    simp only [clean_larrout, to_numeric, this]
    norm_num

/-! ## Column normalization (`normalize_columns`, baac_loader.py:44-60) -/

/-- The fixed alias table of `normalize_columns`. -/
def column_mapping : List (String × String) :=
  [("accident_id", "num_acc"), ("agglo", "agg"),
   ("id_vehicule", "id_vehicule"), ("num_veh", "num_veh")]

/-- `rename_dict`: alias pairs whose source is a present column and whose
source differs from the target (baac_loader.py:55-56). -/
def rename_dict (cols : List String) : List (String × String) :=
  column_mapping.filter (fun p => cols.contains p.1 && !(p.1 == p.2))

/-- `df.rename(columns=d)`: map one column label through the dictionary. -/
def apply_rename (d : List (String × String)) (c : String) : String :=
  match d.find? (fun p => p.1 == c) with
  | some p => p.2
  | none => c

/-- `normalize_columns` on the list of column labels: lowercase, then
rename via the filtered alias dictionary. -/
def normalize_columns (cols : List String) : List String :=
  let lc := cols.map strToLower
  lc.map (apply_rename (rename_dict lc))

/-- The filtered dictionary behaves, on present columns, like the plain
two-entry alias table (the identity pairs are always dropped). -/
theorem apply_rename_dict_eq (lc : List String) (x : String) (hx : x ∈ lc) :
    apply_rename (rename_dict lc) x =
      apply_rename [("accident_id", "num_acc"), ("agglo", "agg")] x := by
  by_cases h1 : x = "accident_id"
  · subst h1
    simp [rename_dict, column_mapping, apply_rename, List.filter, hx, List.find?]
  · by_cases h2 : x = "agglo"
    · subst h2
      by_cases h3 : "accident_id" ∈ lc <;>
        simp [rename_dict, column_mapping, apply_rename, List.filter, hx, h3, List.find?]
    · have e1 : ("accident_id" == x) = false := by
        simp only [beq_eq_false_iff_ne]
        exact fun hh => h1 hh.symm
      have e2 : ("agglo" == x) = false := by
        simp only [beq_eq_false_iff_ne]
        exact fun hh => h2 hh.symm
      by_cases h3 : "accident_id" ∈ lc <;>
        by_cases h4 : "agglo" ∈ lc <;>
        simp [rename_dict, column_mapping, apply_rename, List.filter, h3, h4, e1, e2,
          List.find?]

/-! ### C7: alias renaming -/

/-- C7 counterexample: with both the alias "accident_id" and the canonical
"num_acc" present, the rename is still applied and the canonical column is
duplicated — there is no "target already present" guard. -/
theorem c7_alias_overwrite_counterexample :
    normalize_columns ["accident_id", "num_acc"] = ["num_acc", "num_acc"] ∧
    (normalize_columns ["accident_id", "num_acc"]).count "num_acc" = 2 ∧
    normalize_columns ["accident_id", "num_acc"] ≠ ["accident_id", "num_acc"] := by
  decide

/-- C7 (amended): after lowercasing, every alias occurrence is renamed to
its canonical target unconditionally — even when the target is already a
column, in which case the canonical label ends up duplicated. -/
theorem c7_alias_rename (cols : List String) :
    normalize_columns cols =
      cols.map (fun c =>
        apply_rename [("accident_id", "num_acc"), ("agglo", "agg")] (strToLower c)) := by
  unfold normalize_columns
  have hmm : cols.map (fun c =>
        apply_rename [("accident_id", "num_acc"), ("agglo", "agg")] (strToLower c)) =
      (cols.map strToLower).map
        (apply_rename [("accident_id", "num_acc"), ("agglo", "agg")]) := by
    rw [List.map_map]
    rfl
  rw [hmm]
  exact List.map_congr_left (fun x hx => apply_rename_dict_eq _ x hx)

/-! ## Timestamp reconciliation (`process_timestamp`, baac_loader.py:112-144) -/

/-- `fillna("00:00").astype(str).str.replace(":", "").str.zfill(4)` on one
hrmn cell (baac_loader.py:115). -/
def hrmn_normalize (cell : Option String) : String :=
  ⟨zfillL 4 ((cell.getD "00:00").data.filter (fun c => !(c == ':')))⟩

/-- The last four-element core of the hrmn regex,
`[0-9][2-3][0-5][0-9]`, matched against a prefix. -/
def matchTail4 (l : List Char) : Bool :=
  match l with
  | c0 :: c1 :: c2 :: c3 :: _ =>
      c0.isDigit && (c1 == '2' || c1 == '3') &&
      (decide ('0' ≤ c2) && decide (c2 ≤ '5')) && c3.isDigit
  | _ => false

/-- `Series.str.match(r"[0-1]?[0-9][2-3][0-5][0-9]")` (baac_loader.py:116):
`re.match` anchored at the start only; the optional `[0-1]?` gives two
alternatives. -/
def hrmn_regex_match (s : String) : Bool :=
  match s.data with
  | [] => false
  | c :: rest => ((c == '0' || c == '1') && matchTail4 rest) || matchTail4 (c :: rest)

/-- The hrmn value after validation (baac_loader.py:115-117): values not
matching the regex are replaced by "0000". -/
def hrmn_final (cell : Option String) : String :=
  let s := hrmn_normalize cell
  if hrmn_regex_match s then s else "0000"

/-- Python `int(s)` on the substrings taken from hrmn: digit-only strings
parse, anything else raises (modelled as `none`). -/
def parseNatDigits (s : String) : Option Nat :=
  if !s.data.isEmpty && digitsOnly s.data then some (natDigitsVal s.data) else none

/-- The two-digit-year fix (baac_loader.py:125): add 2000 below 100. -/
def adjust_year (an : Option Int) : Option Int :=
  an.map (fun x => if x < 100 then x + 2000 else x)

def isLeapYear (y : Int) : Bool :=
  y % 4 == 0 && (y % 400 == 0 || !(y % 100 == 0))

def daysInMonth (y : Int) (m : Nat) : Nat :=
  if m == 2 then (if isLeapYear y then 29 else 28)
  else if m == 4 || m == 6 || m == 9 || m == 11 then 30
  else 31

/-- Validity of the composed `"Y-M-D H:MI"` string under
`pd.to_datetime(..., errors="coerce")`: a real Gregorian calendar date
within the nanosecond-timestamp year range, hour 0-23, minute 0-59. -/
def isValidDateTime (y : Int) (m d h mi : Nat) : Bool :=
  decide (1678 ≤ y) && decide (y ≤ 2261) && decide (1 ≤ m) && decide (m ≤ 12) &&
  decide (1 ≤ d) && decide (d ≤ daysInMonth y m) && decide (h ≤ 23) && decide (mi ≤ 59)

/-- Zeller's congruence: day of week with 0 = Saturday, 1 = Sunday. -/
def zellerDow (y m d : Nat) : Nat :=
  let mm := if m ≤ 2 then m + 12 else m
  let yy := if m ≤ 2 then y - 1 else y
  let k := yy % 100
  let j := yy / 100
  (d + (13 * (mm + 1)) / 5 + k + k / 4 + j / 4 + 5 * j) % 7

def is_last_sunday (y : Int) (m d : Nat) : Bool :=
  zellerDow y.toNat m d == 1 && decide (daysInMonth y m < d + 7)

/-- The Europe/Paris wall-clock times mapped to NaT by
`tz_localize("Europe/Paris", ambiguous="NaT", nonexistent="NaT")`: the
nonexistent hour 02:00-02:59 on the last Sunday of March and the ambiguous
hour 02:00-02:59 on the last Sunday of October. -/
def paris_dst_nat (y : Int) (m d h : Nat) : Bool :=
  h == 2 && (m == 3 || m == 10) && is_last_sunday y m d

structure Timestamp where
  year : Int
  month : Nat
  day : Nat
  hour : Nat
  minute : Nat
deriving DecidableEq

/-- One accident row's raw time fields (`an`, `mois`, `jour`, `hrmn`). -/
structure RawTimeRow where
  an : Option Int
  mois : Option Nat
  jour : Option Nat
  hrmn : Option String

/-- The fields produced by `process_timestamp` for one row. -/
structure TimeResult where
  hrmn : String
  heure : Option Nat
  minute : Option Nat
  timestamp : Option Timestamp
deriving DecidableEq

/-- `process_timestamp` (baac_loader.py:112-144) on one row, with the hrmn
column present: normalize and validate hrmn, split hour/minute, fix the
year, default month/day to 1, compose, and localize (coercion failures and
DST-gap times give a null timestamp; a failed `astype(int)` is `none`). -/
def process_timestamp_row (row : RawTimeRow) : TimeResult :=
  let hfin := hrmn_final row.hrmn
  let heure := parseNatDigits ⟨hfin.data.take 2⟩
  let minute := parseNatDigits ⟨hfin.data.drop 2⟩
  let an := adjust_year row.an
  let ts : Option Timestamp :=
    match an, heure, minute with
    | some y, some h, some mi =>
        let m := row.mois.getD 1
        let d := row.jour.getD 1
        if isValidDateTime y m d h mi then
          if paris_dst_nat y m d h then none else some ⟨y, m, d, h, mi⟩
        else none
    | _, _, _ => none
  ⟨hfin, heure, minute, ts⟩

/-- A valid HHMM string as the specification words it: exactly four
digits, hours 00-23, minutes 00-59. -/
def spec_valid_hhmm (s : String) : Bool :=
  decide (s.data.length = 4) && digitsOnly s.data &&
  decide (natDigitsVal (s.data.take 2) ≤ 23) && decide (natDigitsVal (s.data.drop 2) ≤ 59)

/-! ### C2: hrmn validation (code bug) -/

/-- C2: the spec's example "2500" is indeed reset to "0000" and composed
as midnight 2021-01-01, but the regex `[0-1]?[0-9][2-3][0-5][0-9]` does
not implement the valid-HHMM check: it also resets the valid time "1450"
to "0000", and keeps the invalid "9230" unchanged. -/
theorem c2_hrmn_regex_eval :
    hrmn_final (some "1450") = "0000" ∧ spec_valid_hhmm "1450" = true ∧
    hrmn_final (some "2500") = "0000" ∧ spec_valid_hhmm "2500" = false ∧
    hrmn_final (some "9230") = "9230" ∧ spec_valid_hhmm "9230" = false ∧
    (process_timestamp_row ⟨some 2021, some 1, some 1, some "2500"⟩).timestamp =
      some ⟨2021, 1, 1, 0, 0⟩ := by decide

/-! ### C10: null hrmn gives midnight, not a null timestamp -/

/-- C10: a null hrmn cell is filled with "00:00", normalized to "0000",
yielding hour 0 and minute 0, and — when the date fields form a valid
calendar date — a midnight timestamp rather than a null timestamp. -/
theorem c10_null_hrmn_midnight (an : Int) (mois jour : Nat)
    (h : isValidDateTime (if an < 100 then an + 2000 else an) mois jour 0 0 = true) :
    process_timestamp_row ⟨some an, some mois, some jour, none⟩ =
      ⟨"0000", some 0, some 0,
        some ⟨(if an < 100 then an + 2000 else an), mois, jour, 0, 0⟩⟩ := by
  have hh : hrmn_final none = "0000" := by decide
  simp only [process_timestamp_row, hh, adjust_year, Option.map]
  have e1 : parseNatDigits ⟨"0000".data.take 2⟩ = some 0 := by decide
  have e2 : parseNatDigits ⟨"0000".data.drop 2⟩ = some 0 := by decide
  rw [e1, e2]
  simp only [Option.getD_some]
  rw [if_pos h]
  have hdst : paris_dst_nat (if an < 100 then an + 2000 else an) mois jour 0 = false := by
    simp [paris_dst_nat]
  rw [hdst]
  rfl

/-- C10 witness: the year 2021, January 1 row with a null hrmn cell. -/
theorem c10_null_hrmn_midnight_witness :
    process_timestamp_row ⟨some 2021, some 1, some 1, none⟩ =
      ⟨"0000", some 0, some 0, some ⟨2021, 1, 1, 0, 0⟩⟩ := by
  have e : (if (2021 : Int) < 100 then (2021 : Int) + 2000 else 2021) = 2021 := by
    norm_num
  have h := c10_null_hrmn_midnight 2021 1 1 (by rw [e]; decide)
  rw [e] at h
  exact h

/-! ## Per-year loading and aggregation (`load_year` / `load_all_years`,
baac_loader.py:277-326 and 355-401) -/

/-- The four tables a year's load produces (rows are opaque). -/
structure YearTables where
  accidents : List Nat
  lieux : List Nat
  vehicules : List Nat
  usagers : List Nat
  year : Nat
deriving DecidableEq

/-- The combined multi-year dataset. -/
structure Dataset where
  accidents : List Nat
  lieux : List Nat
  vehicules : List Nat
  usagers : List Nat
deriving DecidableEq

/-- `load_year` (baac_loader.py:277-326): the body (locating the four
files, reading, normalizing, cleaning, timestamp/GPS processing) either
produces the tables or raises; the surrounding `try`/`except Exception`
turns every exception into the sentinel `None`. -/
def load_year (body : Except String YearTables) : Option YearTables :=
  match body with
  | Except.ok r => some r
  | Except.error _ => none

/-- The aggregation part of `load_all_years` (baac_loader.py:355-401):
raise `FileNotFoundError` when no year directories exist, drop failed
years, and concatenate the rest; `pd.concat` raises `ValueError` on an
empty list of tables. -/
def load_all_years_agg (results : List (Option YearTables)) : Except String Dataset :=
  if results.isEmpty then Except.error "Aucune annee trouvee"
  else
    let ok := results.filterMap id
    if ok.isEmpty then Except.error "No objects to concatenate"
    else
      Except.ok ⟨(ok.map YearTables.accidents).flatten, (ok.map YearTables.lieux).flatten,
        (ok.map YearTables.vehicules).flatten, (ok.map YearTables.usagers).flatten⟩

/-! ### C8: error boundaries -/

/-- C8: `load_year` never lets an exception escape — it returns the absence
sentinel exactly on a raised body; and the aggregator raises exactly when
zero years produced data (no year directories, or every year failed),
otherwise returning the concatenation of exactly the successfully loaded
years' tables in order. -/
theorem c8_loader_error_boundary :
    (∀ body : Except String YearTables,
      load_year body = none ↔ ∃ e, body = Except.error e) ∧
    (∀ results : List (Option YearTables),
      ((load_all_years_agg results).isOk = false ↔ results.filterMap id = []) ∧
      (∀ d, load_all_years_agg results = Except.ok d →
        d = ⟨((results.filterMap id).map YearTables.accidents).flatten,
             ((results.filterMap id).map YearTables.lieux).flatten,
             ((results.filterMap id).map YearTables.vehicules).flatten,
             ((results.filterMap id).map YearTables.usagers).flatten⟩)) := by
  constructor
  · intro body
    cases body <;> simp [load_year]
  · intro results
    constructor
    · unfold load_all_years_agg
      by_cases h1 : results.isEmpty = true
      · rw [if_pos h1]
        have : results = [] := List.isEmpty_iff.mp h1
        subst this
        simp [Except.isOk, Except.toBool]
      · rw [if_neg h1]
        by_cases h2 : (results.filterMap id).isEmpty = true
        · rw [if_pos h2]
          simp [Except.isOk, Except.toBool, List.isEmpty_iff.mp h2]
        · rw [if_neg h2]
          exact ⟨fun h => absurd h (by simp [Except.isOk, Except.toBool]),
            fun h => absurd (by simp [h]) h2⟩
    · intro d hd
      unfold load_all_years_agg at hd
      by_cases h1 : results.isEmpty = true
      · rw [if_pos h1] at hd
        exact absurd hd (by simp)
      · rw [if_neg h1] at hd
        by_cases h2 : (results.filterMap id).isEmpty = true
        · rw [if_pos h2] at hd
          exact absurd hd (by simp)
        · rw [if_neg h2] at hd
          simpa using hd.symm

/-- C8 witness: a run with one successful year and one failed year is `ok`,
and a raised body yields the sentinel. -/
theorem c8_loader_error_boundary_witness :
    load_year (Except.error "Erreur lecture 2020") = none ∧
    (load_all_years_agg [some ⟨[1], [2], [3], [4], 2020⟩, none]).isOk = true := by
  constructor
  · exact (c8_loader_error_boundary.1 (Except.error "Erreur lecture 2020")).mpr
      ⟨"Erreur lecture 2020", rfl⟩
  · cases hok : (load_all_years_agg [some ⟨[1], [2], [3], [4], 2020⟩, none]).isOk
    · exact absurd ((c8_loader_error_boundary.2
        [some ⟨[1], [2], [3], [4], 2020⟩, none]).1.mp hok) (by decide)
    · rfl

/-! ## Signature-based cache (`get_data_signature` / `load_all_years`,
baac_loader.py:25-42 and 336-353, 395-399) -/

/-- One observation of the directory scan: a year directory, a table
keyword, and the byte size of the first matching CSV file. -/
structure FileEntry where
  year : Nat
  keyword : String
  size : Nat
deriving DecidableEq

/-- The f-string `f"{year}-{keyword}-{f_size}"` (baac_loader.py:38). -/
def entryString (f : FileEntry) : String :=
  natRepr f.year ++ "-" ++ f.keyword ++ "-" ++ natRepr f.size

/-- Python `"-".join(parts)` (baac_loader.py:42). -/
def joinDash : List String → String
  | [] => ""
  | [s] => s
  | s :: t :: r => s ++ "-" ++ joinDash (t :: r)

/-- `joblib.hash` is an opaque deterministic collision-free fingerprint of
its input (an md5 over a pickled value); modelled as the identity embedding
of the signature string, which is likewise deterministic and injective. -/
def joblibHash (s : String) : String := s

/-- `get_data_signature` (baac_loader.py:25-42) on the ordered
`(year, keyword, size)` observations of the directory scan. -/
def get_data_signature (files : List FileEntry) : String :=
  joblibHash (joinDash (files.map entryString))

/-- The cache-relevant disk state seen by `load_all_years`. -/
structure CacheState where
  cacheExists : Bool
  sigExists : Bool
  storedSig : String
  cached : Dataset

/-- What `load_all_years` does: return the cached dataset untouched, or
recompute and write back the fresh dataset together with the new
signature. -/
inductive LoadOutcome where
  | fromCache : Dataset → LoadOutcome
  | recomputed : Dataset → String → LoadOutcome
deriving DecidableEq

/-- The cache decision of `load_all_years` (baac_loader.py:336-353):
without a forced reload, with both the cache file and the signature sidecar
present and the stored signature equal to the recomputed one, the cached
dataset is returned unchanged; in every other case the dataset is
recomputed from the CSV files and both artifacts are overwritten
(baac_loader.py:395-399). -/
def load_all_years_cache (forceReload : Bool) (st : CacheState)
    (files : List FileEntry) (fresh : Dataset) : LoadOutcome :=
  let current := get_data_signature files
  if !forceReload && st.cacheExists && st.sigExists && (st.storedSig == current) then
    LoadOutcome.fromCache st.cached
  else
    LoadOutcome.recomputed fresh current

/-! ### Decimal rendering lemmas -/

theorem digitChar_val : ∀ d < 10, (Nat.digitChar d).toNat - 48 = d := by decide

theorem natDigitsVal_append_digit (l : List Char) (c : Char) :
    natDigitsVal (l ++ [c]) = 10 * natDigitsVal l + (c.toNat - 48) := by
  simp only [natDigitsVal, List.foldl_append, List.foldl_cons, List.foldl_nil]
  ring

theorem natDigitsVal_natDigits (n : Nat) : natDigitsVal (natDigits n) = n := by
  induction n using Nat.strong_induction_on with
  | _ n ih =>
    rw [natDigits]
    by_cases h : n < 10
    · rw [if_pos h]
      have e : natDigitsVal [Nat.digitChar n] = (Nat.digitChar n).toNat - 48 := by
        simp [natDigitsVal]
      rw [e, digitChar_val n h]
    · rw [if_neg h, natDigitsVal_append_digit,
        ih (n / 10) (Nat.div_lt_self (by omega) (by omega)),
        digitChar_val (n % 10) (Nat.mod_lt _ (by omega))]
      omega

theorem natRepr_inj {m n : Nat} (h : natRepr m = natRepr n) : m = n := by
  have hd : natDigits m = natDigits n := congrArg String.data h
  have := natDigitsVal_natDigits m
  rw [hd, natDigitsVal_natDigits] at this
  exact this.symm

/-! ### Join lemmas -/

theorem joinDash_cons_ne (s : String) (L : List String) (h : L ≠ []) :
    joinDash (s :: L) = s ++ "-" ++ joinDash L := by
  cases L with
  | nil => exact absurd rfl h
  | cons u r => rfl

theorem joinDash_length (l : List String) (hl : l ≠ []) :
    (joinDash l).length = (l.map String.length).sum + (l.length - 1) := by
  induction l with
  | nil => exact absurd rfl hl
  | cons s t ih =>
    cases t with
    | nil => simp [joinDash]
    | cons u r =>
      rw [joinDash_cons_ne s (u :: r) (by simp)]
      simp only [String.length_append, ih (by simp), List.map_cons, List.sum_cons,
        List.length_cons]
      have : ("-" : String).length = 1 := rfl
      rw [this]
      omega

theorem joinDash_single_change (a b : List String) (x y : String) (hxy : x ≠ y) :
    joinDash (a ++ x :: b) ≠ joinDash (a ++ y :: b) := by
  induction a with
  | nil =>
    cases b with
    | nil => simpa [joinDash] using hxy
    | cons u r =>
      simp only [List.nil_append]
      rw [joinDash_cons_ne x (u :: r) (by simp), joinDash_cons_ne y (u :: r) (by simp)]
      intro hcontra
      apply hxy
      have hd := congrArg String.data hcontra
      simp only [String.data_append, List.append_assoc] at hd
      exact String.ext (List.append_cancel_right hd)
  | cons s t ih =>
    rw [List.cons_append, List.cons_append,
      joinDash_cons_ne s (t ++ x :: b) (by simp),
      joinDash_cons_ne s (t ++ y :: b) (by simp)]
    intro hcontra
    apply ih
    have hd := congrArg String.data hcontra
    simp only [String.data_append, List.append_assoc] at hd
    exact String.ext (List.append_cancel_left (List.append_cancel_left hd))

theorem entryString_size_ne (f g : FileEntry) (hy : f.year = g.year)
    (hk : f.keyword = g.keyword) (hs : f.size ≠ g.size) :
    entryString f ≠ entryString g := by
  intro h
  apply hs
  unfold entryString at h
  rw [hy, hk] at h
  have hd := congrArg String.data h
  simp only [String.data_append, List.append_assoc, List.append_right_inj] at hd
  exact natRepr_inj (String.ext hd)

theorem entryString_length_pos (f : FileEntry) : 1 ≤ (entryString f).length := by
  unfold entryString
  simp only [String.length_append]
  have : ("-" : String).length = 1 := rfl
  rw [this]
  omega

theorem sum_entry_lengths_ge (L : List FileEntry) :
    L.length ≤ ((L.map entryString).map String.length).sum := by
  induction L with
  | nil => simp
  | cons f t ih =>
    simp only [List.map_cons, List.sum_cons, List.length_cons]
    have := entryString_length_pos f
    omega

/-! ### C9: cache hit iff signature match -/

/-- C9: with no forced reload and both cache artifacts present, the cached
dataset is returned unchanged exactly when the stored signature equals the
recomputed hash of the ordered `(year, keyword, byte-size)` observations;
on any mismatch the dataset is recomputed and both artifacts are
overwritten with the fresh values; and changing one file's byte size, or
adding year entries, changes the signature. -/
theorem c9_signature_cache (st : CacheState) (files : List FileEntry) (fresh : Dataset)
    (hce : st.cacheExists = true) (hse : st.sigExists = true) :
    ((load_all_years_cache false st files fresh = LoadOutcome.fromCache st.cached) ↔
      st.storedSig = get_data_signature files) ∧
    (st.storedSig ≠ get_data_signature files →
      load_all_years_cache false st files fresh =
        LoadOutcome.recomputed fresh (get_data_signature files)) ∧
    (∀ pre post (f g : FileEntry), f.year = g.year → f.keyword = g.keyword →
      f.size ≠ g.size →
      get_data_signature (pre ++ f :: post) ≠ get_data_signature (pre ++ g :: post)) ∧
    (∀ extra : List FileEntry, extra ≠ [] →
      get_data_signature (files ++ extra) ≠ get_data_signature files) := by
  refine ⟨?_, ?_, ?_, ?_⟩
  · unfold load_all_years_cache
    by_cases h : st.storedSig = get_data_signature files <;>
      simp [hce, hse, beq_iff_eq, h]
  · intro hne
    unfold load_all_years_cache
    simp [hce, hse, beq_iff_eq, hne]
  · intro pre post f g hy hk hs
    unfold get_data_signature joblibHash
    simp only [List.map_append, List.map_cons]
    exact joinDash_single_change _ _ _ _ (entryString_size_ne f g hy hk hs)
  · intro extra hne hcontra
    unfold get_data_signature joblibHash at hcontra
    have hextra1 : 1 ≤ extra.length := List.length_pos.mpr hne
    have hsume := sum_entry_lengths_ge extra
    have hlen := congrArg String.length hcontra
    rcases files with _ | ⟨f, t⟩
    · have hmapne : extra.map entryString ≠ [] := by
        simpa using hne
      simp only [List.nil_append, List.map_nil] at hlen
      rw [joinDash_length _ hmapne] at hlen
      have h0 : (joinDash []).length = 0 := rfl
      rw [h0] at hlen
      simp only [List.length_map] at hlen
      omega
    · have hmapne1 : ((f :: t) ++ extra).map entryString ≠ [] := by simp
      have hmapne2 : (f :: t).map entryString ≠ [] := by simp
      rw [joinDash_length _ hmapne1, joinDash_length _ hmapne2] at hlen
      simp only [List.map_append, List.sum_append, List.length_map, List.length_append,
        List.length_cons, List.map_cons, List.sum_cons] at hlen hsume
      have hsumf := sum_entry_lengths_ge (f :: t)
      simp only [List.map_cons, List.sum_cons, List.length_cons] at hsumf
      omega

/-- C9 witness: a matching signature is served from the cache, and a
one-byte size change flips the signature. -/
theorem c9_signature_cache_witness :
    load_all_years_cache false
      ⟨true, true, get_data_signature [⟨2020, "caract", 100⟩], ⟨[], [], [], []⟩⟩
      [⟨2020, "caract", 100⟩] ⟨[1], [], [], []⟩ =
      LoadOutcome.fromCache ⟨[], [], [], []⟩ ∧
    get_data_signature [⟨2020, "caract", 100⟩] ≠
      get_data_signature [⟨2020, "caract", 101⟩] := by
  constructor
  · exact (c9_signature_cache ⟨true, true,
      get_data_signature [⟨2020, "caract", 100⟩], ⟨[], [], [], []⟩⟩
      [⟨2020, "caract", 100⟩] ⟨[1], [], [], []⟩ rfl rfl).1.mpr rfl
  · have h := (c9_signature_cache ⟨true, true, "", ⟨[], [], [], []⟩⟩ [] ⟨[], [], [], []⟩
      rfl rfl).2.2.1 [] [] ⟨2020, "caract", 100⟩ ⟨2020, "caract", 101⟩ rfl rfl
      (by decide)
    simpa using h


end DM12
